import Mathlib

/-!
Verification of the FrED control / digital-twin core (`src/fred/control.py`,
`src/fred/process_models.py`) against its natural-language specification.

The control-side code (the `pid1` controller and the `ManualDAQ`/`Control`
loop) is embedded over `ℚ`: it uses only field arithmetic and comparisons,
so the embedding is computable and claims can be checked by `decide`.
The process-model twins are embedded over `ℝ` because their step functions
use `math.sqrt` and `math.pi`.

Python floats are modelled as exact rationals/reals; every claim settled
here is about branch structure, clamping and algebraic identities, not
about rounding.
-/

namespace Fred

/-! ## pid1 (src/fred/control.py, lines 556-596)

State of the `pid1` class: the fields written in `pid1.__init__`.
`time_last` and `current_val_last` are initialised to `None` in the source
and are always assigned (via `setHtrPID`/`setSpoolPID`) before
`calc_output` runs; they are modelled as plain rationals. The Python field
`self.do` is named `do_` here because `do` is a Lean keyword. -/
structure pid1 where
  is_running : Bool
  time_last : ℚ
  current_val_last : ℚ
  po : ℚ
  io : ℚ
  do_ : ℚ
  iomin : ℚ
  iomax : ℚ
  out_last : ℚ
  out_max_ch : ℚ
deriving DecidableEq, Repr

/-- Field values set by `pid1.__init__` (with the two `None` fields at 0;
they are overwritten before any `calc_output` call in the source). -/
def pid1.init : pid1 :=
  { is_running := false
    time_last := 0
    current_val_last := 0
    po := 0
    io := 0
    do_ := 0
    iomin := -1
    iomax := 1
    out_last := 0
    out_max_ch := 1 }

/-- Embedding of `pid1.calc_output` (control.py lines 571-596).
`time.time()` is passed in as `time_current`; the method both mutates the
object and returns the output, so the embedding returns the new state and
the returned value. -/
def pid1.calc_output (s : pid1) (kp ki kd target_val current_val : ℚ)
    (time_current : ℚ) : pid1 × ℚ :=
  let dt := time_current - s.time_last
  if dt < 1/1000 then
    (s, 0)
  else
    let err := target_val - current_val
    let po := kp * err
    let io := s.io + ki * err * dt
    let io := if io ≤ s.iomax then io else s.iomax
    let io := if io ≥ s.iomin then io else s.iomin
    let do_ := -kd * (current_val - s.current_val_last) / dt
    let out := po + io + do_
    let out := if out ≤ 1 then out else 1
    let out := if out ≥ 0 then out else 0
    let out :=
      if |out - s.out_last| > s.out_max_ch then
        if out < s.out_last then s.out_last - s.out_max_ch
        else s.out_last + s.out_max_ch
      else out
    ({ s with po := po, io := io, do_ := do_,
              current_val_last := current_val,
              time_last := time_current,
              out_last := out }, out)

/-- One `calc_output` call site: the arguments of one call, with the
wall-clock time `time.time()` returns during it. -/
structure PidCall where
  kp : ℚ
  ki : ℚ
  kd : ℚ
  target_val : ℚ
  current_val : ℚ
  time_current : ℚ

/-- State reached by a sequence of `calc_output` calls (outputs discarded). -/
def pid1.run_seq (s : pid1) (calls : List PidCall) : pid1 :=
  calls.foldl
    (fun s c =>
      (s.calc_output c.kp c.ki c.kd c.target_val c.current_val c.time_current).1)
    s

/-! ## Control set-point setters (src/fred/control.py, lines 79-195)

Each `@property` setter of `Control` writes one private field after
clamping; the embedding is the value stored by the setter. The setters
never raise: they are total functions (out-of-range requests are clamped
and logged, not rejected). -/

/-- Setter `Control.feed_set_freq` (clamp to [0, 320]). -/
def Control.feed_set_freq_set (v : ℚ) : ℚ :=
  if v < 0 then 0 else if v > 320 then 320 else v

/-- Setter `Control.feed_set_speed` (clamp to [0, 0.1]). -/
def Control.feed_set_speed_set (v : ℚ) : ℚ :=
  if v < 0 then 0 else if v > 0.1 then 0.1 else v

/-- Setter `Control.fiber_set_dia` (clamp to [0, twin.FIL_FEED_R * 2],
with `FIL_FEED_R = 3.5`). -/
def Control.fiber_set_dia_set (v : ℚ) : ℚ :=
  if v < 0 then 0 else if v > 3.5 * 2 then 3.5 * 2 else v

/-- Setter `Control.htr_set_pwr` (clamp to [0, 1]). -/
def Control.htr_set_pwr_set (v : ℚ) : ℚ :=
  if v < 0 then 0 else if v > 1 then 1 else v

/-- Setter `Control.htr_set_temp` (clamp to [20, 120]). -/
def Control.htr_set_temp_set (v : ℚ) : ℚ :=
  if v < 20 then 20 else if v > 120 then 120 else v

/-- Setter `Control.spool_set_pwr` (clamp to [0, 1]). -/
def Control.spool_set_pwr_set (v : ℚ) : ℚ :=
  if v < 0 then 0 else if v > 1 then 1 else v

/-- Setter `Control.spool_set_speed` (clamp to [0, 1.5]). -/
def Control.spool_set_speed_set (v : ℚ) : ℚ :=
  if v < 0 then 0 else if v > 1.5 then 1.5 else v

/-! ## ManualDAQ (src/fred/control.py, lines 246-554)

The fields of a `ManualDAQ` object that its `update` method and the
`Control.run` loop read or write. Python `int`/`bool` telemetry values
(`wind_dir`, `wind_count`) are kept as rationals; `wind_dir` is truthy in
the source (`if self.wind_dir:`), modelled as `≠ 0`. The two PID objects
are `pid1` states. -/
structure ManualDAQ where
  feed_set_freq : ℚ
  feed_set_speed : ℚ
  fiber_set_dia : ℚ
  htr_set_pwr : ℚ
  htr_set_temp : ℚ
  spool_set_pwr : ℚ
  spool_set_speed : ℚ
  wind_set_freq : ℚ
  prev_time : ℚ
  interval : ℚ
  feed_dir : Bool
  spool_dir : Bool
  wind_dir : ℚ
  wind_count : ℚ
  spool_cur_dia : ℚ
  htr_temp : ℚ
  feed_speed : ℚ
  spool_speed : ℚ
  fiber_dia : ℚ
  fiber_len : ℚ
  htr_current : ℚ
  spool_current : ℚ
  step_current : ℚ
  sys_power : ℚ
  sys_energy : ℚ
  tempPID : pid1
  spoolPID : pid1
  is_msg_htr : Bool
  is_msg_feed : Bool
  is_msg_spool : Bool
  is_msg_wind : Bool
  is_msg_init : Bool
  is_msg_stop : Bool
deriving DecidableEq

/-- Field values set by `Control.__init__` and `ManualDAQ.__init__`
(times, initialised from `time.time()` in the source, start at 0 here;
`__init__` overrides `tempPID.iomax` to 0.3 and `interval` to 0.001). -/
def ManualDAQ.init : ManualDAQ :=
  { feed_set_freq := 0
    feed_set_speed := 0
    fiber_set_dia := 0
    htr_set_pwr := 0
    htr_set_temp := 20
    spool_set_pwr := 0
    spool_set_speed := 0
    wind_set_freq := 0
    prev_time := 0
    interval := 0.001
    feed_dir := true
    spool_dir := true
    wind_dir := 1
    wind_count := 1
    spool_cur_dia := 20
    htr_temp := 0
    feed_speed := 0
    spool_speed := 0
    fiber_dia := 0
    fiber_len := 0
    htr_current := 0
    spool_current := 0
    step_current := 0
    sys_power := 0
    sys_energy := 0
    tempPID := { pid1.init with iomax := 0.3 }
    spoolPID := pid1.init
    is_msg_htr := false
    is_msg_feed := false
    is_msg_spool := false
    is_msg_wind := false
    is_msg_init := false
    is_msg_stop := false }

/-- The ASCII command tokens `ManualDAQ.update` can write to the ESP 32
serial port (each carries the formatted value it is sent with). -/
inductive EspMsg where
  | datareq
  | stop
  | htr (v : ℚ)
  | feed_dir_F
  | feed_dir_R
  | feed (v : ℚ)
  | spool_dir_F
  | spool_dir_R
  | spool (v : ℚ)
  | wind_dir_L
  | wind_dir_R
  | wind (v : ℚ)
  | init_cmd
deriving DecidableEq

/-- Result of `float(inmsgs[i])` / `int(inmsgs[i])` on the comma-split
telemetry line: `none` when the index is missing (IndexError) or the token
does not parse (ValueError). -/
def parse_field (fields : List (Option ℚ)) (i : ℕ) : Option ℚ :=
  fields.getD i none

/-- Embedding of the ESP telemetry read of `ManualDAQ.update` (control.py
lines 440-458). `line = none` models a transport failure (`ser.write` /
`ser.readline` raising, or `self.ser` being `None`); otherwise `line` is
the comma-split reply with each numeric token pre-parsed. The Python
`try` block assigns the sensor fields one by one and the `except` clause
catches the first failure and keeps going, so a failure at field `i`
keeps the assignments made for fields below `i`. The exception is always
caught: the embedding is a total function, the loop continues. -/
def ManualDAQ.read_esp (line : Option (List (Option ℚ))) (s : ManualDAQ) :
    ManualDAQ :=
  match line with
  | none => s
  | some fields =>
    match parse_field fields 1 with
    | none => s
    | some v1 =>
      let s := { s with htr_temp := v1 }
      match parse_field fields 2 with
      | none => s
      | some v2 =>
        let s := { s with spool_speed := v2 / 8400 }
        match parse_field fields 3 with
        | none => s
        | some v3 =>
          let s := { s with spool_current := v3 }
          match parse_field fields 4 with
          | none => s
          | some v4 =>
            let s := { s with htr_current := v4 }
            match parse_field fields 5 with
            | none => s
            | some v5 =>
              let s := { s with step_current := v5 }
              match parse_field fields 6 with
              | none => s
              | some v6 =>
                let s := { s with wind_dir := v6 }
                match parse_field fields 7 with
                | none => s
                | some v7 =>
                  let s :=
                    if v7 > s.wind_count then
                      { s with spool_cur_dia :=
                          s.spool_cur_dia + 2 * s.fiber_dia }
                    else s
                  { s with wind_count := v7 }

/-- Embedding of the RS-232 fiber-diameter read of `ManualDAQ.update`
(control.py lines 459-468): `reading = none` models a transport failure or
a reply whose third field does not parse; negative readings are stored as
zero. -/
def ManualDAQ.read_fiber (reading : Option ℚ) (s : ManualDAQ) : ManualDAQ :=
  match reading with
  | none => s
  | some v => if v < 0 then { s with fiber_dia := 0 } else { s with fiber_dia := v }

/-- Embedding of the serial message block at the end of `ManualDAQ.update`
(control.py lines 508-553): when a stop was requested (`is_msg_stop`), the
`S` stop command is written and both PIDs are stopped and `feed_speed`
zeroed; otherwise the pending per-actuator messages are joined into one
write. Failed serial writes only log, so emission is modelled as the list
of tokens passed to `ser.write`. -/
def ManualDAQ.send_msgs (s : ManualDAQ) : ManualDAQ × List EspMsg :=
  if s.is_msg_stop then
    ({ s with tempPID := { s.tempPID with is_running := false }
              spoolPID := { s.spoolPID with is_running := false }
              feed_speed := 0
              is_msg_stop := false }, [EspMsg.stop])
  else
    let m1 : List EspMsg := if s.is_msg_htr then [EspMsg.htr s.htr_set_pwr] else []
    let m2 : List EspMsg :=
      if s.is_msg_feed then
        [(if s.feed_dir then EspMsg.feed_dir_F else EspMsg.feed_dir_R),
          EspMsg.feed s.feed_set_freq]
      else []
    let m3 : List EspMsg :=
      if s.is_msg_spool then
        [(if s.spool_dir then EspMsg.spool_dir_F else EspMsg.spool_dir_R),
          EspMsg.spool s.spool_set_pwr]
      else []
    let m4 : List EspMsg :=
      if s.is_msg_wind then
        [(if s.wind_dir ≠ 0 then EspMsg.wind_dir_R else EspMsg.wind_dir_L),
          EspMsg.wind s.wind_set_freq]
      else []
    let m5 : List EspMsg := if s.is_msg_init then [EspMsg.init_cmd] else []
    ({ s with is_msg_htr := false
              is_msg_feed := false
              is_msg_spool := false
              is_msg_wind := false
              is_msg_init := false },
      m1 ++ m2 ++ m3 ++ m4 ++ m5)

/-- Embedding of the `Control.run` loop (control.py lines 217-233).
`self.is_running` is cleared by another thread and `time.time()` advances
externally, so each loop iteration's observed `(is_running, time)` pair is
an element of the input list; `upd` is the dynamically dispatched
`self.update` with its serial emissions. The debug-log branch only logs
and is omitted. After the `while` loop exits the method only logs the stop
time: no further message is emitted. -/
def Control.run_loop (upd : ManualDAQ → ManualDAQ × List EspMsg) :
    ManualDAQ → List (Bool × ℚ) → ManualDAQ × List EspMsg
  | s, [] => (s, [])
  | s, (flag, t) :: rest =>
    if flag then
      let step :=
        if t ≥ s.prev_time + s.interval then
          let r := upd s
          ({ r.1 with prev_time := t }, r.2)
        else (s, [])
      let tail := Control.run_loop upd step.1 rest
      (tail.1, step.2 ++ tail.2)
    else (s, [])

/-! ## ProcessTwin (src/fred/process_models.py)

The digital-twin state and the `model()` step functions of the four twin
variants. The step functions use `math.sqrt` and `math.pi`, so this part
of the embedding lives over `ℝ`. The property setters are simple clamps
on the stored value and are embedded over `ℚ` (every constant involved is
an exact decimal). -/

namespace ProcessTwin

/-- Constant `STEP_FEED_PITCH_D` (mm). -/
noncomputable def STEP_FEED_PITCH_D : ℝ := 18.5

/-- Constant `FIL_FEED_R` (mm). -/
noncomputable def FIL_FEED_R : ℝ := 3.5

/-- Constant `NOZZLE_R` (mm). -/
noncomputable def NOZZLE_R : ℝ := 1.5

/-- Constant `SPOOL_D` (mm). -/
noncomputable def SPOOL_D : ℝ := 20

/-- Constant `SPOOL_W` (mm). -/
noncomputable def SPOOL_W : ℝ := 40

/-- Setter `ProcessTwin.htr_pwr` (clamp to [0, 1]). -/
def htr_pwr_set (v : ℚ) : ℚ :=
  if v < 0 then 0 else if v > 1 then 1 else v

/-- Setter `ProcessTwin.feed_freq` (clamp to [0, 100]). -/
def feed_freq_set (v : ℚ) : ℚ :=
  if v < 0 then 0 else if v > 100 then 100 else v

/-- Setter `ProcessTwin.spool_pwr` (clamp to [0, 1]). -/
def spool_pwr_set (v : ℚ) : ℚ :=
  if v < 0 then 0 else if v > 1 then 1 else v

/-- Setter `ProcessTwin.htr_temp` (clamp to [20, 120]). -/
def htr_temp_set (v : ℚ) : ℚ :=
  if v < 20 then 20 else if v > 120 then 120 else v

/-- Setter `ProcessTwin.feed_speed` (clamp to [0, 0.031]; the source also
writes `_feed_freq = clamped * 3200`, which does not affect the readback
of `feed_speed` itself). -/
def feed_speed_set (v : ℚ) : ℚ :=
  if v < 0 then 0 else if v > 0.031 then 0.031 else v

/-- Setter `ProcessTwin.spool_speed` (clamp to [0, 1.5]). -/
def spool_speed_set (v : ℚ) : ℚ :=
  if v < 0 then 0 else if v > 1.5 then 1.5 else v

/-- Setter `ProcessTwin.fiber_dia` (clamp to [0, FIL_FEED_R * 2], with
`FIL_FEED_R = 3.5`). -/
def fiber_dia_set (v : ℚ) : ℚ :=
  if v < 0 then 0 else if v > 3.5 * 2 then 3.5 * 2 else v

end ProcessTwin

/-- The mutable numeric state of a `ProcessTwin` (the `__init__` fields the
`model()` step functions read and write; `wind_dir` and the log bookkeeping
fields are omitted, no step function uses them). -/
structure TwinState where
  htr_pwr : ℝ
  feed_freq : ℝ
  spool_pwr : ℝ
  htr_temp : ℝ
  feed_speed : ℝ
  spool_speed : ℝ
  fiber_dia : ℝ
  htr_current : ℝ
  spool_current : ℝ
  step_current : ℝ
  sys_power : ℝ
  wind_count : ℝ
  sys_energy : ℝ
  fiber_len : ℝ
  interval : ℝ
  cur_time : ℝ
  prev_time : ℝ

/-- Field values set by `ProcessTwin.__init__` (times start at 0; they are
assigned from `time.time()` when `run()` starts). -/
noncomputable def TwinState.init : TwinState :=
  { htr_pwr := 0
    feed_freq := 0
    spool_pwr := 0
    htr_temp := 20
    feed_speed := 0
    spool_speed := 0
    fiber_dia := 0
    htr_current := 0
    spool_current := 0
    step_current := 0
    sys_power := 0
    wind_count := 1
    sys_energy := 0
    fiber_len := 0
    interval := 0.1
    cur_time := 0
    prev_time := 0 }

/-- Embedding of `BasicStateTwin.model` (process_models.py lines 302-319). -/
noncomputable def BasicStateTwin.model (s : TwinState) : TwinState :=
  if s.htr_temp ≥ 75 then
    if s.feed_freq > 0 then
      let s := { s with feed_speed := s.feed_freq / 3200 }
      if s.spool_speed > 0 then
        let s := { s with fiber_dia :=
          6.73 * Real.sqrt (s.feed_speed / s.spool_speed) }
        let vspool := s.spool_speed * ProcessTwin.SPOOL_D * Real.pi / 1000
        { s with fiber_len :=
            s.fiber_len + vspool * (s.cur_time - s.prev_time) }
      else
        { s with fiber_dia := ProcessTwin.NOZZLE_R * 2 }
    else
      { s with fiber_dia := 0 }
  else
    { s with feed_freq := 0, feed_speed := 0, fiber_dia := 0 }

/-- The run-condition section of `RegressionStateTwin.model`
(process_models.py lines 346-362): threshold-gated feed/fiber update. -/
noncomputable def RegressionStateTwin.gate (s : TwinState) : TwinState :=
  if s.htr_temp ≥ 75 then
    if s.feed_freq > 0 then
      let s := { s with feed_speed := s.feed_freq / 3200 }
      if s.spool_speed > 0 then
        let s := { s with fiber_dia :=
          6.38896 * Real.sqrt (s.feed_speed / s.spool_speed) + 0.011145 }
        let vspool := s.spool_speed * ProcessTwin.SPOOL_D * Real.pi / 1000
        { s with fiber_len :=
            s.fiber_len + vspool * (s.cur_time - s.prev_time) }
      else
        { s with fiber_dia := ProcessTwin.NOZZLE_R * 2 }
    else
      { s with fiber_dia := 0 }
  else
    { s with feed_freq := 0, feed_speed := 0, fiber_dia := 0 }

/-- The power-consumption section of `RegressionStateTwin.model`
(process_models.py lines 363-369), including the energy accumulation done
inside `model()` itself. -/
noncomputable def RegressionStateTwin.power (s : TwinState) : TwinState :=
  let htr_current := 34.1 * s.htr_temp - 1188 + s.feed_speed / 0.005 * 130
  let spool_current := s.spool_speed / 1.5 * 182.8
  let step_current : ℝ := 509
  let sys_power := (htr_current + spool_current + step_current) * 0.012
  { s with htr_current := htr_current
           spool_current := spool_current
           step_current := step_current
           sys_power := sys_power
           sys_energy := (s.sys_energy
             + sys_power * (s.cur_time - s.prev_time) / 3600) }

/-- Embedding of `RegressionStateTwin.model` (process_models.py lines
345-369): the gated state update followed by the power/energy section. -/
noncomputable def RegressionStateTwin.model (s : TwinState) : TwinState :=
  RegressionStateTwin.power (RegressionStateTwin.gate s)

/-- State of a `BasicDynamicTwin`: the shared twin state plus the fields
its `__init__` adds. -/
structure BasicDynState extends TwinState where
  MC : ℝ
  spool_cur_dia : ℝ
  wind_prev_len : ℝ
  wind_dist : ℝ

/-- Field values set by `BasicDynamicTwin.__init__`. -/
noncomputable def BasicDynState.init : BasicDynState :=
  { TwinState.init with
    interval := 0.1
    MC := 0.2
    spool_cur_dia := ProcessTwin.SPOOL_D
    wind_prev_len := 0
    wind_dist := Real.pi * ProcessTwin.SPOOL_D * 50 }

/-- The heater-model section of `BasicDynamicTwin.model`
(process_models.py lines 402-407): explicit Euler step, written straight
to the private field (no clamp). -/
noncomputable def BasicDynamicTwin.heater (s : BasicDynState) : BasicDynState :=
  let temp_gain := s.MC * 40 * s.htr_pwr * (s.cur_time - s.prev_time)
  let temp_loss := (s.cur_time - s.prev_time)
    * (0.05 * (s.htr_temp - 20) + 0.001 * s.feed_freq)
  { s with htr_temp := s.htr_temp + temp_gain - temp_loss }

/-- The run-condition section of `BasicDynamicTwin.model`
(process_models.py lines 408-438): threshold-gated feed/spool/fiber and
winding-diameter update. -/
noncomputable def BasicDynamicTwin.gate (s : BasicDynState) : BasicDynState :=
  if s.htr_temp ≥ 90 then
      if s.feed_freq > 0 then
        let s := { s with feed_speed := s.feed_freq / 3200 }
        let v1 := ProcessTwin.STEP_FEED_PITCH_D * Real.pi * s.feed_speed
        let v2 := v1 * (ProcessTwin.FIL_FEED_R ^ 2 / ProcessTwin.NOZZLE_R ^ 2)
        if s.spool_pwr > 0 then
          let s := { s with spool_speed := 1.5 * s.spool_pwr }
          let v3 := Real.pi * s.spool_cur_dia * s.spool_speed
          let s := { s with fiber_dia :=
            2 * ProcessTwin.FIL_FEED_R * Real.sqrt (v2 / v3) }
          let s :=
            if s.fiber_dia > ProcessTwin.FIL_FEED_R * 2 then
              { s with fiber_dia := ProcessTwin.FIL_FEED_R * 2 }
            else s
          let s := { s with fiber_len :=
            s.fiber_len + v3 * (s.cur_time - s.prev_time) }
          if s.fiber_len - s.wind_prev_len ≥ s.wind_dist then
            let s := { s with wind_prev_len := s.fiber_len
                              spool_cur_dia := s.spool_cur_dia + 2 * s.fiber_dia }
            { s with wind_dist := Real.pi * s.spool_cur_dia * 50 }
          else s
        else
          { s with fiber_dia := ProcessTwin.NOZZLE_R * 2 }
      else
        { s with fiber_dia := 0 }
  else
    { s with feed_freq := 0, feed_speed := 0, spool_speed := 0, fiber_dia := 0 }

/-- The power-consumption line of `BasicDynamicTwin.model`
(process_models.py lines 439-441). -/
noncomputable def BasicDynamicTwin.power (s : BasicDynState) : BasicDynState :=
  { s with sys_power :=
      40 * s.htr_pwr + 2 + 0.002 * s.feed_freq + 24 * s.spool_pwr }

/-- Embedding of `BasicDynamicTwin.model` (process_models.py lines
400-441): Euler heater step, the threshold-gated section, then the
power-consumption line. -/
noncomputable def BasicDynamicTwin.model (s : BasicDynState) : BasicDynState :=
  BasicDynamicTwin.power (BasicDynamicTwin.gate (BasicDynamicTwin.heater s))

/-- State of a `RegressionDynamicTwin`: the shared twin state plus the
fields its `__init__` adds (the heater power dead-time machinery, the
winding regression, and the previous-step temperature). -/
structure RegDynState extends TwinState where
  mc : ℝ
  ha : ℝ
  htr_pwr_delay : ℝ
  wind_factor : ℝ
  spool_cur_dia : ℝ
  wind_prev_len : ℝ
  wind_dist : ℝ
  htr_temp_last : ℝ
  wind_freq : ℝ
  htr_pwr_o : ℝ
  htr_pwr_target : ℝ
  htr_pwr_delta : ℝ
  htr_pwr_cur : ℝ
  htr_pwr_ch_time : ℝ

/-- Field values set by `RegressionDynamicTwin.__init__`. -/
noncomputable def RegDynState.init : RegDynState :=
  { TwinState.init with
    interval := 0.1
    wind_count := 1
    mc := 0.68
    ha := 0.0026
    htr_pwr_delay := 26
    wind_factor := 1
    spool_cur_dia := ProcessTwin.SPOOL_D
    wind_prev_len := 0
    wind_dist := Real.pi * ProcessTwin.SPOOL_D * 50
    htr_temp_last := 20
    wind_freq := 0
    htr_pwr_o := 0
    htr_pwr_target := 0
    htr_pwr_delta := 0
    htr_pwr_cur := 0
    htr_pwr_ch_time := 0 }

/-- The heater power-ramp (dead-time delay) section of
`RegressionDynamicTwin.model` (process_models.py lines 493-510). -/
noncomputable def RegressionDynamicTwin.pwr_delay (s : RegDynState) : RegDynState :=
  let s : RegDynState :=
    if s.htr_pwr ≠ s.htr_pwr_target then
      { s with htr_pwr_o := s.htr_pwr_cur
               htr_pwr_target := s.htr_pwr
               htr_pwr_delta := s.htr_pwr - s.htr_pwr_cur
               htr_pwr_ch_time := s.cur_time }
    else s
  let s : RegDynState :=
    if s.htr_pwr_cur ≠ s.htr_pwr_target then
      if s.cur_time ≥ s.htr_pwr_delay + s.htr_pwr_ch_time then
        { s with htr_pwr_cur := s.htr_pwr_target }
      else
        let c := (s.cur_time - s.htr_pwr_ch_time) / s.htr_pwr_delay
          * s.htr_pwr_delta + s.htr_pwr_o
        let c :=
          if s.htr_pwr_delta > 0 then
            if c > s.htr_pwr_target then s.htr_pwr_target else c
          else c
        let c :=
          if s.htr_pwr_delta < 0 then
            if c < s.htr_pwr_target then s.htr_pwr_target else c
          else c
        { s with htr_pwr_cur := c }
    else s
  s

/-- The heat-equation section of `RegressionDynamicTwin.model`
(process_models.py lines 512-518): the new temperature is clamped below at
20 only, and remembered in `htr_temp_last`. -/
noncomputable def RegressionDynamicTwin.heat_eq (s : RegDynState) : RegDynState :=
  let s := { s with htr_temp := (s.htr_temp_last + (s.cur_time - s.prev_time)
    * (s.htr_pwr_cur * s.mc - s.ha * (s.htr_temp_last - 20))) }
  let s : RegDynState := if s.htr_temp < 20 then { s with htr_temp := 20 } else s
  { s with htr_temp_last := s.htr_temp }

/-- The spool line and the run-condition section of
`RegressionDynamicTwin.model` (process_models.py lines 519-547): the spool
speed always follows the spool power; feed/fiber outputs are gated on the
75 C threshold. -/
noncomputable def RegressionDynamicTwin.gate (s : RegDynState) : RegDynState :=
  let s := { s with spool_speed := s.spool_pwr * 1.5 }
  if s.htr_temp ≥ 75 then
      if s.feed_freq > 0 then
        let s := { s with feed_speed := s.feed_freq / 3200 }
        if s.spool_speed > 0 then
          let s := { s with fiber_dia :=
            ((6.38896 * Real.sqrt (s.feed_speed / s.spool_speed) + 0.011145)
              * s.wind_factor) }
          let s := { s with wind_freq := (600 * s.spool_speed * 6.732
            * Real.sqrt (s.feed_speed / s.spool_speed)) }
          let s := { s with wind_prev_len := (s.wind_prev_len
            + s.wind_freq * 0.0025 * (s.cur_time - s.prev_time)) }
          let s :=
            if s.wind_prev_len ≥ ProcessTwin.SPOOL_W then
              let s := { s with wind_prev_len := 0
                                wind_count := s.wind_count + 1 }
              { s with wind_factor := 1 - 0.0054695 * (s.wind_count - 1) }
            else s
          { s with fiber_len := (s.fiber_len
            + s.feed_speed * 2.848 * (s.cur_time - s.prev_time)
              / s.fiber_dia ^ 2) }
        else
          { s with fiber_dia := ProcessTwin.NOZZLE_R * 2 }
      else
        { s with fiber_dia := 0 }
  else
    { s with feed_freq := 0, feed_speed := 0, fiber_dia := 0 }

/-- The power-consumption section of `RegressionDynamicTwin.model`
(process_models.py lines 548-554), including the energy accumulation done
inside `model()` itself. -/
noncomputable def RegressionDynamicTwin.power (s : RegDynState) : RegDynState :=
  let htr_current := s.htr_pwr * 6400
  let spool_current := s.spool_speed / 1.5 * 182.8
  let step_current : ℝ := 509
  let sys_power := (htr_current + spool_current + step_current) * 0.012
  { s with htr_current := htr_current
           spool_current := spool_current
           step_current := step_current
           sys_power := sys_power
           sys_energy := (s.sys_energy
             + sys_power * (s.cur_time - s.prev_time) / 3600) }

/-- Embedding of `RegressionDynamicTwin.model` (process_models.py lines
492-554): power ramp, heat equation, spool/fiber gate, then the
current/power/energy section. -/
noncomputable def RegressionDynamicTwin.model (s : RegDynState) : RegDynState :=
  RegressionDynamicTwin.power (RegressionDynamicTwin.gate
    (RegressionDynamicTwin.heat_eq (RegressionDynamicTwin.pwr_delay s)))

/-- One due scheduler tick of `ProcessTwin.run` (process_models.py lines
263-270) for a `RegressionStateTwin`: `cur_time` is read from
`time.time()`, and when the tick is due the loop runs `model()`, adds the
system-power energy increment a second time, and advances `prev_time`. -/
noncomputable def RegressionStateTwin.run_tick (cur : ℝ) (s : TwinState) :
    TwinState :=
  if cur ≥ s.prev_time + s.interval then
    let s1 := RegressionStateTwin.model { s with cur_time := cur }
    { s1 with
        sys_energy := (s1.sys_energy
          + s1.sys_power * (cur - s1.prev_time) / 3600),
        prev_time := cur }
  else { s with cur_time := cur }

/-- One due scheduler tick of `ProcessTwin.run` for a
`RegressionDynamicTwin` (same loop body, dispatching to its `model()`). -/
noncomputable def RegressionDynamicTwin.run_tick (cur : ℝ) (s : RegDynState) :
    RegDynState :=
  if cur ≥ s.prev_time + s.interval then
    let s1 := RegressionDynamicTwin.model { s with cur_time := cur }
    { s1 with
        sys_energy := (s1.sys_energy
          + s1.sys_power * (cur - s1.prev_time) / 3600),
        prev_time := cur }
  else { s with cur_time := cur }

end Fred

/-- The slew-limiting pattern at the end of `calc_output` moves the output
by at most `ch` from `out_last`, for any nonnegative `ch`. -/
theorem slew_pattern_abs_le (out out_last ch : ℚ) (hch : 0 ≤ ch) :
    |(if |out - out_last| > ch then
        if out < out_last then out_last - ch else out_last + ch
      else out) - out_last| ≤ ch := by
  split_ifs with h1 h2
  · rw [sub_sub_cancel_left, abs_neg, abs_of_nonneg hch]
  · rw [add_sub_cancel_left, abs_of_nonneg hch]
  · exact le_of_not_lt h1

/-- The `calc_output` integral-clamp pattern lands in `[lo, hi]` whenever
`lo ≤ hi`. -/
theorem clamp_pattern_mem (x lo hi : ℚ) (h : lo ≤ hi) :
    lo ≤ (if (if x ≤ hi then x else hi) ≥ lo then (if x ≤ hi then x else hi)
          else lo) ∧
      (if (if x ≤ hi then x else hi) ≥ lo then (if x ≤ hi then x else hi)
        else lo) ≤ hi := by
  split_ifs <;> constructor <;> linarith

/-- The fields `iomin`, `iomax` are never written by `calc_output`. -/
theorem calc_output_keeps_bounds (s : Fred.pid1)
    (kp ki kd target_val current_val time_current : ℚ) :
    (s.calc_output kp ki kd target_val current_val time_current).1.iomin
        = s.iomin ∧
      (s.calc_output kp ki kd target_val current_val time_current).1.iomax
        = s.iomax := by
  simp only [Fred.pid1.calc_output]
  split_ifs <;> exact ⟨rfl, rfl⟩

/-- One `calc_output` call keeps the integral accumulator inside
`[iomin, iomax]`: the early-return path does not touch it, the normal path
clamps it. -/
theorem calc_output_io_mem (s : Fred.pid1)
    (kp ki kd target_val current_val time_current : ℚ)
    (hb : s.iomin ≤ s.iomax) (hlo : s.iomin ≤ s.io) (hhi : s.io ≤ s.iomax) :
    s.iomin ≤ (s.calc_output kp ki kd target_val current_val time_current).1.io
      ∧ (s.calc_output kp ki kd target_val current_val time_current).1.io
          ≤ s.iomax := by
  simp only [Fred.pid1.calc_output]
  by_cases h : time_current - s.time_last < 1/1000
  · rw [if_pos h]
    exact ⟨hlo, hhi⟩
  · rw [if_neg h]
    exact clamp_pattern_mem _ _ _ hb

/-- C3: if `pid1.calc_output` is called with elapsed time
`dt = now - time_last < 0.001`, it returns `0.0` and leaves every field of
the PID state unchanged. -/
theorem C3_calc_output_early_return_frame (s : Fred.pid1)
    (kp ki kd target_val current_val time_current : ℚ)
    (h : time_current - s.time_last < 1/1000) :
    s.calc_output kp ki kd target_val current_val time_current = (s, 0) := by
  simp only [Fred.pid1.calc_output]
  rw [if_pos h]

/-- C3 witness: the early-return theorem applied at a concrete call
(`time_last = 0`, called again at `time_current = 0`, so `dt = 0 < 0.001`). -/
theorem C3_calc_output_early_return_frame_witness :
    Fred.pid1.init.calc_output 2 3 4 50 20 0 = (Fred.pid1.init, 0) :=
  C3_calc_output_early_return_frame Fred.pid1.init 2 3 4 50 20 0
    (by norm_num [Fred.pid1.init])

/-- C2 counterexample: the claim quantifies over the elapsed time as well,
but on the early-return path (`dt < 0.001`) `calc_output` returns `0.0`
without consulting `out_last` or `out_max_ch`. With `out_last = 1` and
`out_max_ch = 1/2`, a call with `dt = 0` returns `0.0`, and
`|0.0 - out_last| = 1 > out_max_ch`. -/
theorem C2_slew_bound_counterexample :
    ¬ |({ Fred.pid1.init with out_last := 1, out_max_ch := 1/2 }.calc_output
          1 1 1 50 20 0).2
        - ({ Fred.pid1.init with out_last := 1, out_max_ch := 1/2 } :
            Fred.pid1).out_last|
      ≤ ({ Fred.pid1.init with out_last := 1, out_max_ch := 1/2 } :
          Fred.pid1).out_max_ch := by
  norm_num [Fred.pid1.calc_output, Fred.pid1.init]

/-- C2 (amended): on the non-early-return path (`dt ≥ 0.001`), and with a
nonnegative configured maximum change (`out_max_ch` is 1.0 by default and
0.5 where the code overrides it), the returned output differs from the
previous returned output by at most `out_max_ch`. -/
theorem C2_slew_bound (s : Fred.pid1)
    (kp ki kd target_val current_val time_current : ℚ)
    (hdt : 1/1000 ≤ time_current - s.time_last) (hch : 0 ≤ s.out_max_ch) :
    |(s.calc_output kp ki kd target_val current_val time_current).2
        - s.out_last|
      ≤ s.out_max_ch := by
  simp only [Fred.pid1.calc_output]
  rw [if_neg (not_lt.mpr hdt)]
  exact slew_pattern_abs_le _ _ _ hch

/-- C2 witness: the amended slew bound at a concrete call with `dt = 1`. -/
theorem C2_slew_bound_witness :
    |(Fred.pid1.init.calc_output 1 1 1 50 20 1).2 - Fred.pid1.init.out_last|
      ≤ Fred.pid1.init.out_max_ch :=
  C2_slew_bound Fred.pid1.init 1 1 1 50 20 1 (by norm_num [Fred.pid1.init])
    (by norm_num [Fred.pid1.init])

/-- C4: for any sequence of `calc_output` calls with arbitrary gains,
set-points, measurements and call times, if `iomin ≤ iomax` and the
integral accumulator starts inside `[iomin, iomax]`, it is inside
`[iomin, iomax]` after every call (the call sequence is arbitrary, so this
covers every prefix). -/
theorem C4_integral_accumulator_clamped (s : Fred.pid1)
    (calls : List Fred.PidCall)
    (hb : s.iomin ≤ s.iomax) (hlo : s.iomin ≤ s.io) (hhi : s.io ≤ s.iomax) :
    s.iomin ≤ (s.run_seq calls).io ∧ (s.run_seq calls).io ≤ s.iomax := by
  induction calls generalizing s with
  | nil => exact ⟨hlo, hhi⟩
  | cons c rest ih =>
      have hkeep := calc_output_keeps_bounds s c.kp c.ki c.kd c.target_val
        c.current_val c.time_current
      have hmem := calc_output_io_mem s c.kp c.ki c.kd c.target_val
        c.current_val c.time_current hb hlo hhi
      have hstep := ih
        (s.calc_output c.kp c.ki c.kd c.target_val c.current_val
          c.time_current).1
        (hkeep.1 ▸ hkeep.2 ▸ hb) (hkeep.1 ▸ hmem.1) (hkeep.2 ▸ hmem.2)
      rw [hkeep.1, hkeep.2] at hstep
      simpa [Fred.pid1.run_seq, List.foldl] using hstep

/-- C4 witness: the invariant at a concrete start state and one call. -/
theorem C4_integral_accumulator_clamped_witness :
    Fred.pid1.init.iomin
        ≤ (Fred.pid1.init.run_seq [⟨1, 1, 1, 50, 20, 1⟩]).io
      ∧ (Fred.pid1.init.run_seq [⟨1, 1, 1, 50, 20, 1⟩]).io
          ≤ Fred.pid1.init.iomax :=
  C4_integral_accumulator_clamped Fred.pid1.init [⟨1, 1, 1, 50, 20, 1⟩]
    (by norm_num [Fred.pid1.init]) (by norm_num [Fred.pid1.init])
    (by norm_num [Fred.pid1.init])

/-- C5: on the non-early-return path, the integral accumulator becomes
exactly the clamp to `[iomin, iomax]` of `io + ki·(target − current)·dt`,
and the value computed before slew limiting is exactly the clamp to
`[0, 1]` of `kp·(target − current) + io' − kd·(current − current_val_last)/dt`
(derivative on the measurement, not on the error); the returned value is
that quantity after the slew-limiting step. -/
theorem C5_pre_slew_output_formula (s : Fred.pid1)
    (kp ki kd target_val current_val time_current : ℚ)
    (hdt : 1/1000 ≤ time_current - s.time_last) :
    (s.calc_output kp ki kd target_val current_val time_current).1.io
        = max s.iomin
            (min (s.io + ki * (target_val - current_val)
                    * (time_current - s.time_last))
              s.iomax)
      ∧ (s.calc_output kp ki kd target_val current_val time_current).2
          = (if |max 0 (min (kp * (target_val - current_val)
                  + max s.iomin
                      (min (s.io + ki * (target_val - current_val)
                              * (time_current - s.time_last))
                        s.iomax)
                  + -kd * (current_val - s.current_val_last)
                      / (time_current - s.time_last))
                1)
              - s.out_last| > s.out_max_ch then
              if max 0 (min (kp * (target_val - current_val)
                    + max s.iomin
                        (min (s.io + ki * (target_val - current_val)
                                * (time_current - s.time_last))
                          s.iomax)
                    + -kd * (current_val - s.current_val_last)
                        / (time_current - s.time_last))
                  1)
                  < s.out_last then
                s.out_last - s.out_max_ch
              else s.out_last + s.out_max_ch
            else
              max 0 (min (kp * (target_val - current_val)
                  + max s.iomin
                      (min (s.io + ki * (target_val - current_val)
                              * (time_current - s.time_last))
                        s.iomax)
                  + -kd * (current_val - s.current_val_last)
                      / (time_current - s.time_last))
                1)) := by
  simp only [Fred.pid1.calc_output]
  rw [if_neg (not_lt.mpr hdt)]
  simp only [min_def, max_def, ge_iff_le]
  constructor <;> trivial

/-- C5 witness: the formula at a concrete call with `dt = 1`. -/
theorem C5_pre_slew_output_formula_witness :
    (Fred.pid1.init.calc_output 1 0 0 1 0 1).1.io
        = max Fred.pid1.init.iomin
            (min (Fred.pid1.init.io + 0 * (1 - 0) * (1 - Fred.pid1.init.time_last))
              Fred.pid1.init.iomax)
      ∧ (Fred.pid1.init.calc_output 1 0 0 1 0 1).2
          = (if |max 0 (min (1 * (1 - 0)
                  + max Fred.pid1.init.iomin
                      (min (Fred.pid1.init.io
                              + 0 * (1 - 0) * (1 - Fred.pid1.init.time_last))
                        Fred.pid1.init.iomax)
                  + -0 * (0 - Fred.pid1.init.current_val_last)
                      / (1 - Fred.pid1.init.time_last))
                1)
              - Fred.pid1.init.out_last| > Fred.pid1.init.out_max_ch then
              if max 0 (min (1 * (1 - 0)
                    + max Fred.pid1.init.iomin
                        (min (Fred.pid1.init.io
                                + 0 * (1 - 0) * (1 - Fred.pid1.init.time_last))
                          Fred.pid1.init.iomax)
                    + -0 * (0 - Fred.pid1.init.current_val_last)
                        / (1 - Fred.pid1.init.time_last))
                  1)
                  < Fred.pid1.init.out_last then
                Fred.pid1.init.out_last - Fred.pid1.init.out_max_ch
              else Fred.pid1.init.out_last + Fred.pid1.init.out_max_ch
            else
              max 0 (min (1 * (1 - 0)
                  + max Fred.pid1.init.iomin
                      (min (Fred.pid1.init.io
                              + 0 * (1 - 0) * (1 - Fred.pid1.init.time_last))
                        Fred.pid1.init.iomax)
                  + -0 * (0 - Fred.pid1.init.current_val_last)
                      / (1 - Fred.pid1.init.time_last))
                1)) :=
  C5_pre_slew_output_formula Fred.pid1.init 1 0 0 1 0 1
    (by norm_num [Fred.pid1.init])

/-- The common setter pattern `if v < lo then lo else if v > hi then hi
else v` is exactly the clamp of `v` to `[lo, hi]`. -/
theorem clamp_setter_eq {α : Type*} [LinearOrder α] (lo hi v : α) (h : lo ≤ hi) :
    (if v < lo then lo else if v > hi then hi else v) = max lo (min hi v) := by
  rcases lt_or_le v lo with h1 | h1
  · rw [if_pos h1, min_eq_right (h1.le.trans h), max_eq_left h1.le]
  · rw [if_neg (not_lt.mpr h1)]
    rcases lt_or_le hi v with h2 | h2
    · rw [if_pos h2, min_eq_left h2.le, max_eq_right h]
    · rw [if_neg (not_lt.mpr h2), min_eq_right h2, max_eq_right h1]

/-- C8: every bounded settable property — the `ProcessTwin` actuator and
sensor properties and the `Control` set-points — stores exactly the clamp
of the assigned value to its valid range, so an out-of-range assignment
reads back as the boundary value and an in-range assignment reads back
unchanged; the setters are total functions (no assignment raises). -/
theorem C8_setter_round_trip :
    (∀ v : ℚ, Fred.ProcessTwin.htr_pwr_set v = max 0 (min 1 v))
      ∧ (∀ v : ℚ, Fred.ProcessTwin.feed_freq_set v = max 0 (min 100 v))
      ∧ (∀ v : ℚ, Fred.ProcessTwin.spool_pwr_set v = max 0 (min 1 v))
      ∧ (∀ v : ℚ, Fred.ProcessTwin.htr_temp_set v = max 20 (min 120 v))
      ∧ (∀ v : ℚ, Fred.ProcessTwin.feed_speed_set v = max 0 (min 0.031 v))
      ∧ (∀ v : ℚ, Fred.ProcessTwin.spool_speed_set v = max 0 (min 1.5 v))
      ∧ (∀ v : ℚ, Fred.ProcessTwin.fiber_dia_set v = max 0 (min (3.5 * 2) v))
      ∧ (∀ v : ℚ, Fred.Control.htr_set_pwr_set v = max 0 (min 1 v))
      ∧ (∀ v : ℚ, Fred.Control.htr_set_temp_set v = max 20 (min 120 v))
      ∧ (∀ v : ℚ, Fred.Control.feed_set_freq_set v = max 0 (min 320 v))
      ∧ (∀ v : ℚ, Fred.Control.feed_set_speed_set v = max 0 (min 0.1 v))
      ∧ (∀ v : ℚ, Fred.Control.spool_set_pwr_set v = max 0 (min 1 v))
      ∧ (∀ v : ℚ, Fred.Control.spool_set_speed_set v = max 0 (min 1.5 v))
      ∧ (∀ v : ℚ, Fred.Control.fiber_set_dia_set v = max 0 (min (3.5 * 2) v)) :=
  ⟨fun v => clamp_setter_eq 0 1 v (by norm_num),
    fun v => clamp_setter_eq 0 100 v (by norm_num),
    fun v => clamp_setter_eq 0 1 v (by norm_num),
    fun v => clamp_setter_eq 20 120 v (by norm_num),
    fun v => clamp_setter_eq 0 0.031 v (by norm_num),
    fun v => clamp_setter_eq 0 1.5 v (by norm_num),
    fun v => clamp_setter_eq 0 (3.5 * 2) v (by norm_num),
    fun v => clamp_setter_eq 0 1 v (by norm_num),
    fun v => clamp_setter_eq 20 120 v (by norm_num),
    fun v => clamp_setter_eq 0 320 v (by norm_num),
    fun v => clamp_setter_eq 0 0.1 v (by norm_num),
    fun v => clamp_setter_eq 0 1 v (by norm_num),
    fun v => clamp_setter_eq 0 1.5 v (by norm_num),
    fun v => clamp_setter_eq 0 (3.5 * 2) v (by norm_num)⟩

/-- C7 counterexample: a control loop whose heater output is standing at
0.5 observes the cleared `is_running` flag and terminates; the run loop
emits no message at all on that shutdown transition (`Control.run` only
logs after its `while` loop), so no final safe zero-output command is
issued. -/
theorem C7_stop_counterexample :
    (Fred.Control.run_loop Fred.ManualDAQ.send_msgs
        { Fred.ManualDAQ.init with htr_set_pwr := 1/2 } [(false, 0)]).2 = []
      ∧ ({ Fred.ManualDAQ.init with htr_set_pwr := 1/2 } :
          Fred.ManualDAQ).htr_set_pwr ≠ 0 := by
  constructor
  · rfl
  · norm_num

/-- C7 (amended): clearing `is_running` makes the run loop terminate
immediately with no further emission, whatever the update method and the
state; a zero/safe shutdown is only produced by an explicit `sendStop()`
request — when `is_msg_stop` is pending, the next `update` tick (while the
loop is still running) writes the `S` stop command, stops both PID loops
and zeroes `feed_speed`. -/
theorem C7_stop_semantics :
    (∀ (upd : Fred.ManualDAQ → Fred.ManualDAQ × List Fred.EspMsg)
        (s : Fred.ManualDAQ) (t : ℚ) (rest : List (Bool × ℚ)),
        Fred.Control.run_loop upd s ((false, t) :: rest) = (s, []))
      ∧ (∀ s : Fred.ManualDAQ,
          Fred.ManualDAQ.send_msgs { s with is_msg_stop := true }
            = ({ s with tempPID := { s.tempPID with is_running := false }
                        spoolPID := { s.spoolPID with is_running := false }
                        feed_speed := 0
                        is_msg_stop := false }, [Fred.EspMsg.stop])) := by
  constructor
  · intro upd s t rest
    rfl
  · intro s
    rfl

/-- C9 counterexample: a telemetry line whose second numeric field is
missing (`<ignored>,50` — `float(inmsgs[2])` raises IndexError) still
updates `htr_temp` to the newly read 50 before the exception fires, so the
previously read sensor values are not all held for that tick. -/
theorem C9_partial_read_counterexample :
    (Fred.ManualDAQ.read_esp (some [some 0, some 50])
        { Fred.ManualDAQ.init with htr_temp := 30 }).htr_temp = 50
      ∧ ({ Fred.ManualDAQ.init with htr_temp := 30 } :
          Fred.ManualDAQ).htr_temp = 30
      ∧ (50 : ℚ) ≠ 30 := by
  refine ⟨rfl, rfl, by norm_num⟩

/-- C9 (amended): a failed sensor read is caught and logged and the loop
continues (the read is a total state transformer, never a fatal error).
A transport failure, or a line whose first numeric field is unreadable,
holds all previously read sensor values; but a line that fails at a later
field keeps the assignments made before the failure — only the fields from
the first unreadable one onward are held. The same holding applies to a
failed RS-232 fiber-diameter read. -/
theorem C9_read_failure_semantics :
    (∀ s : Fred.ManualDAQ, Fred.ManualDAQ.read_esp none s = s)
      ∧ (∀ (s : Fred.ManualDAQ) (x0 : Option ℚ) (rest : List (Option ℚ)),
          Fred.ManualDAQ.read_esp (some (x0 :: none :: rest)) s = s)
      ∧ (∀ (s : Fred.ManualDAQ) (x0 : Option ℚ) (v : ℚ)
            (rest : List (Option ℚ)),
          Fred.ManualDAQ.read_esp (some (x0 :: some v :: none :: rest)) s
            = { s with htr_temp := v })
      ∧ (∀ s : Fred.ManualDAQ, Fred.ManualDAQ.read_fiber none s = s) := by
  refine ⟨fun s => rfl, fun s x0 rest => rfl, fun s x0 v rest => rfl,
    fun s => rfl⟩

/-- C6 counterexample: `BasicDynamicTwin.model` writes the heater
temperature directly to the private field with no clamp: one due tick of
20 s at full heater power from the initial 20 C state puts the heater
temperature at 180 C, far above the documented [20, 120] range. -/
theorem C6_htr_temp_range_counterexample :
    (Fred.BasicDynamicTwin.model
        { Fred.BasicDynState.init with htr_pwr := 1, cur_time := 20 }).htr_temp
        = 180
      ∧ ¬ (Fred.BasicDynamicTwin.model
            { Fred.BasicDynState.init with htr_pwr := 1, cur_time := 20
            }).htr_temp ≤ 120 := by
  norm_num [Fred.BasicDynamicTwin.model, Fred.BasicDynamicTwin.heater,
    Fred.BasicDynamicTwin.gate, Fred.BasicDynamicTwin.power,
    Fred.BasicDynState.init, Fred.TwinState.init]

/-- The regression heat equation clamps the new temperature below at 20. -/
theorem RegDyn_heat_eq_htr_temp_ge (s : Fred.RegDynState) :
    20 ≤ (Fred.RegressionDynamicTwin.heat_eq s).htr_temp := by
  simp only [Fred.RegressionDynamicTwin.heat_eq]
  split_ifs with h <;> simp_all

/-- The gated feed/fiber section never writes the heater temperature. -/
theorem RegDyn_gate_htr_temp (s : Fred.RegDynState) :
    (Fred.RegressionDynamicTwin.gate s).htr_temp = s.htr_temp := by
  simp only [Fred.RegressionDynamicTwin.gate]
  split_ifs <;> rfl

/-- The power/energy section never writes the heater temperature. -/
theorem RegDyn_power_htr_temp (s : Fred.RegDynState) :
    (Fred.RegressionDynamicTwin.power s).htr_temp = s.htr_temp := rfl

/-- C6 (amended): writes that go through the property setters are clamped
(the heater-temperature setter keeps [20, 120]), but `model()` writes the
private temperature field directly: `BasicDynamicTwin` applies no clamp at
all (the counterexample reaches 180 C), and `RegressionDynamicTwin` clamps
only the lower bound — after any of its model steps the heater temperature
is at least 20, with no upper clamp at 120. -/
theorem C6_clamping_semantics :
    (∀ v : ℚ, 20 ≤ Fred.ProcessTwin.htr_temp_set v
        ∧ Fred.ProcessTwin.htr_temp_set v ≤ 120)
      ∧ ∀ s : Fred.RegDynState,
          20 ≤ (Fred.RegressionDynamicTwin.model s).htr_temp := by
  constructor
  · intro v
    unfold Fred.ProcessTwin.htr_temp_set
    split_ifs <;> constructor <;> linarith
  · intro s
    unfold Fred.RegressionDynamicTwin.model
    rw [RegDyn_power_htr_temp, RegDyn_gate_htr_temp]
    exact RegDyn_heat_eq_htr_temp_ge _

/-- C1 counterexample: in `RegressionDynamicTwin.model` the spool output
is not gated on the heater threshold. From the initial state with
`spool_pwr = 1` and heater power 0, one model step at `cur_time = 1`
leaves the heater at 20 C (below the 75 C threshold), zeroes the feed and
fiber outputs, but drives the spool at `spool_speed = 1.5 ≠ 0`. -/
theorem C1_below_threshold_counterexample :
    ({ Fred.RegDynState.init with spool_pwr := 1, cur_time := 1 } :
        Fred.RegDynState).htr_temp < 75
      ∧ (Fred.RegressionDynamicTwin.model
          { Fred.RegDynState.init with spool_pwr := 1, cur_time := 1
          }).htr_temp < 75
      ∧ (Fred.RegressionDynamicTwin.model
          { Fred.RegDynState.init with spool_pwr := 1, cur_time := 1
          }).spool_speed ≠ 0 := by
  norm_num [Fred.RegressionDynamicTwin.model,
    Fred.RegressionDynamicTwin.pwr_delay, Fred.RegressionDynamicTwin.heat_eq,
    Fred.RegressionDynamicTwin.gate, Fred.RegressionDynamicTwin.power,
    Fred.RegDynState.init, Fred.TwinState.init]

/-- The basic dynamic gate never writes the heater temperature. -/
theorem BasicDyn_gate_htr_temp (s : Fred.BasicDynState) :
    (Fred.BasicDynamicTwin.gate s).htr_temp = s.htr_temp := by
  simp only [Fred.BasicDynamicTwin.gate]
  split_ifs <;> rfl

/-- Below 90 C the basic dynamic gate zeroes feed, spool and fiber. -/
theorem BasicDyn_gate_below (s : Fred.BasicDynState) (h : s.htr_temp < 90) :
    Fred.BasicDynamicTwin.gate s
      = { s with feed_freq := 0, feed_speed := 0, spool_speed := 0,
                 fiber_dia := 0 } := by
  simp only [Fred.BasicDynamicTwin.gate]
  rw [if_neg (not_le.mpr h)]

/-- Below 75 C the regression dynamic gate zeroes feed and fiber but still
sets the spool speed from the spool power. -/
theorem RegDyn_gate_below (s : Fred.RegDynState) (h : s.htr_temp < 75) :
    Fred.RegressionDynamicTwin.gate s
      = { s with spool_speed := s.spool_pwr * 1.5, feed_freq := 0,
                 feed_speed := 0, fiber_dia := 0 } := by
  simp only [Fred.RegressionDynamicTwin.gate]
  rw [if_neg (not_le.mpr h)]

/-- Below 75 C the regression state gate zeroes feed and fiber (it never
touches the spool speed). -/
theorem RegState_gate_below (s : Fred.TwinState) (h : s.htr_temp < 75) :
    Fred.RegressionStateTwin.gate s
      = { s with feed_freq := 0, feed_speed := 0, fiber_dia := 0 } := by
  simp only [Fred.RegressionStateTwin.gate]
  rw [if_neg (not_le.mpr h)]

/-- The power-ramp section only writes the heater power ramp fields. -/
theorem RegDyn_pwr_delay_spool_pwr (s : Fred.RegDynState) :
    (Fred.RegressionDynamicTwin.pwr_delay s).spool_pwr = s.spool_pwr := by
  simp only [Fred.RegressionDynamicTwin.pwr_delay]
  split_ifs <;> rfl

/-- The heat-equation section does not write the spool power. -/
theorem RegDyn_heat_eq_spool_pwr (s : Fred.RegDynState) :
    (Fred.RegressionDynamicTwin.heat_eq s).spool_pwr = s.spool_pwr := by
  simp only [Fred.RegressionDynamicTwin.heat_eq]
  split_ifs <;> rfl

/-- C1 (amended): after a `model()` step whose threshold check fails (the
state twins test the incoming heater temperature, the dynamic twins test
the temperature their heater stage just computed, which is the resulting
temperature), the feed outputs (`feed_freq`, `feed_speed`) and the fiber
diameter are zero in all four variants; the spool output is zeroed only by
`BasicDynamicTwin` — the state twins leave `spool_speed` untouched and
`RegressionDynamicTwin` still drives it to `spool_pwr · 1.5` below the
threshold. -/
theorem C1_below_threshold_outputs :
    (∀ s : Fred.TwinState, s.htr_temp < 75 →
        (Fred.BasicStateTwin.model s).feed_freq = 0
          ∧ (Fred.BasicStateTwin.model s).feed_speed = 0
          ∧ (Fred.BasicStateTwin.model s).fiber_dia = 0
          ∧ (Fred.BasicStateTwin.model s).spool_speed = s.spool_speed)
      ∧ (∀ s : Fred.TwinState, s.htr_temp < 75 →
          (Fred.RegressionStateTwin.model s).feed_freq = 0
            ∧ (Fred.RegressionStateTwin.model s).feed_speed = 0
            ∧ (Fred.RegressionStateTwin.model s).fiber_dia = 0
            ∧ (Fred.RegressionStateTwin.model s).spool_speed = s.spool_speed)
      ∧ (∀ s : Fred.BasicDynState,
          (Fred.BasicDynamicTwin.model s).htr_temp < 90 →
          (Fred.BasicDynamicTwin.model s).feed_freq = 0
            ∧ (Fred.BasicDynamicTwin.model s).feed_speed = 0
            ∧ (Fred.BasicDynamicTwin.model s).spool_speed = 0
            ∧ (Fred.BasicDynamicTwin.model s).fiber_dia = 0)
      ∧ (∀ s : Fred.RegDynState,
          (Fred.RegressionDynamicTwin.model s).htr_temp < 75 →
          (Fred.RegressionDynamicTwin.model s).feed_freq = 0
            ∧ (Fred.RegressionDynamicTwin.model s).feed_speed = 0
            ∧ (Fred.RegressionDynamicTwin.model s).fiber_dia = 0
            ∧ (Fred.RegressionDynamicTwin.model s).spool_speed
                = s.spool_pwr * 1.5) := by
  refine ⟨fun s h => ?_, fun s h => ?_, fun s h => ?_, fun s h => ?_⟩
  · unfold Fred.BasicStateTwin.model
    rw [if_neg (not_le.mpr h)]
    exact ⟨rfl, rfl, rfl, rfl⟩
  · unfold Fred.RegressionStateTwin.model
    rw [RegState_gate_below s h]
    exact ⟨rfl, rfl, rfl, rfl⟩
  · have hT : (Fred.BasicDynamicTwin.heater s).htr_temp < 90 := by
      have hmt : (Fred.BasicDynamicTwin.model s).htr_temp
          = (Fred.BasicDynamicTwin.heater s).htr_temp := by
        show (Fred.BasicDynamicTwin.gate (Fred.BasicDynamicTwin.heater
          s)).htr_temp = (Fred.BasicDynamicTwin.heater s).htr_temp
        exact BasicDyn_gate_htr_temp _
      rwa [hmt] at h
    unfold Fred.BasicDynamicTwin.model
    rw [BasicDyn_gate_below _ hT]
    exact ⟨rfl, rfl, rfl, rfl⟩
  · have hT : (Fred.RegressionDynamicTwin.heat_eq
        (Fred.RegressionDynamicTwin.pwr_delay s)).htr_temp < 75 := by
      have hmt : (Fred.RegressionDynamicTwin.model s).htr_temp
          = (Fred.RegressionDynamicTwin.heat_eq
              (Fred.RegressionDynamicTwin.pwr_delay s)).htr_temp := by
        show (Fred.RegressionDynamicTwin.gate (Fred.RegressionDynamicTwin.heat_eq
          (Fred.RegressionDynamicTwin.pwr_delay s))).htr_temp = _
        exact RegDyn_gate_htr_temp _
      rwa [hmt] at h
    unfold Fred.RegressionDynamicTwin.model
    rw [RegDyn_gate_below _ hT]
    refine ⟨rfl, rfl, rfl, ?_⟩
    show (Fred.RegressionDynamicTwin.heat_eq
        (Fred.RegressionDynamicTwin.pwr_delay s)).spool_pwr * 1.5
      = s.spool_pwr * 1.5
    rw [RegDyn_heat_eq_spool_pwr, RegDyn_pwr_delay_spool_pwr]

/-- The regression state gate leaves energy and the tick times alone. -/
theorem RegState_gate_frame (x : Fred.TwinState) :
    (Fred.RegressionStateTwin.gate x).sys_energy = x.sys_energy
      ∧ (Fred.RegressionStateTwin.gate x).cur_time = x.cur_time
      ∧ (Fred.RegressionStateTwin.gate x).prev_time = x.prev_time := by
  simp only [Fred.RegressionStateTwin.gate]
  split_ifs <;> exact ⟨rfl, rfl, rfl⟩

/-- Inside `RegressionStateTwin.model`, the energy accumulator gains
exactly one `sys_power · dt / 3600` increment, with `sys_power` the newly
computed system power. -/
theorem RegState_model_energy (x : Fred.TwinState) :
    (Fred.RegressionStateTwin.model x).sys_energy
      = x.sys_energy + (Fred.RegressionStateTwin.model x).sys_power
          * (x.cur_time - x.prev_time) / 3600 := by
  have hf := RegState_gate_frame x
  unfold Fred.RegressionStateTwin.model
  rw [← hf.1, ← hf.2.1, ← hf.2.2]
  rfl

/-- `RegressionStateTwin.model` does not advance `prev_time`. -/
theorem RegState_model_prev (x : Fred.TwinState) :
    (Fred.RegressionStateTwin.model x).prev_time = x.prev_time := by
  have hf := RegState_gate_frame x
  unfold Fred.RegressionStateTwin.model
  exact hf.2.2

/-- The regression dynamic power-ramp stage leaves energy and times alone. -/
theorem RegDyn_pwr_delay_frame (x : Fred.RegDynState) :
    (Fred.RegressionDynamicTwin.pwr_delay x).sys_energy = x.sys_energy
      ∧ (Fred.RegressionDynamicTwin.pwr_delay x).cur_time = x.cur_time
      ∧ (Fred.RegressionDynamicTwin.pwr_delay x).prev_time = x.prev_time := by
  simp only [Fred.RegressionDynamicTwin.pwr_delay]
  split_ifs <;> exact ⟨rfl, rfl, rfl⟩

/-- The regression dynamic heat-equation stage leaves energy and times
alone. -/
theorem RegDyn_heat_eq_frame (x : Fred.RegDynState) :
    (Fred.RegressionDynamicTwin.heat_eq x).sys_energy = x.sys_energy
      ∧ (Fred.RegressionDynamicTwin.heat_eq x).cur_time = x.cur_time
      ∧ (Fred.RegressionDynamicTwin.heat_eq x).prev_time = x.prev_time := by
  simp only [Fred.RegressionDynamicTwin.heat_eq]
  split_ifs <;> exact ⟨rfl, rfl, rfl⟩

/-- The regression dynamic gate leaves energy and times alone. -/
theorem RegDyn_gate_frame (x : Fred.RegDynState) :
    (Fred.RegressionDynamicTwin.gate x).sys_energy = x.sys_energy
      ∧ (Fred.RegressionDynamicTwin.gate x).cur_time = x.cur_time
      ∧ (Fred.RegressionDynamicTwin.gate x).prev_time = x.prev_time := by
  simp only [Fred.RegressionDynamicTwin.gate]
  split_ifs <;> exact ⟨rfl, rfl, rfl⟩

/-- Inside `RegressionDynamicTwin.model`, the energy accumulator gains
exactly one `sys_power · dt / 3600` increment. -/
theorem RegDyn_model_energy (x : Fred.RegDynState) :
    (Fred.RegressionDynamicTwin.model x).sys_energy
      = x.sys_energy + (Fred.RegressionDynamicTwin.model x).sys_power
          * (x.cur_time - x.prev_time) / 3600 := by
  have h1 := RegDyn_pwr_delay_frame x
  have h2 := RegDyn_heat_eq_frame (Fred.RegressionDynamicTwin.pwr_delay x)
  have h3 := RegDyn_gate_frame (Fred.RegressionDynamicTwin.heat_eq
    (Fred.RegressionDynamicTwin.pwr_delay x))
  have hE : (Fred.RegressionDynamicTwin.gate (Fred.RegressionDynamicTwin.heat_eq
      (Fred.RegressionDynamicTwin.pwr_delay x))).sys_energy = x.sys_energy := by
    rw [h3.1, h2.1, h1.1]
  have hC : (Fred.RegressionDynamicTwin.gate (Fred.RegressionDynamicTwin.heat_eq
      (Fred.RegressionDynamicTwin.pwr_delay x))).cur_time = x.cur_time := by
    rw [h3.2.1, h2.2.1, h1.2.1]
  have hP : (Fred.RegressionDynamicTwin.gate (Fred.RegressionDynamicTwin.heat_eq
      (Fred.RegressionDynamicTwin.pwr_delay x))).prev_time = x.prev_time := by
    rw [h3.2.2, h2.2.2, h1.2.2]
  unfold Fred.RegressionDynamicTwin.model
  rw [← hE, ← hC, ← hP]
  rfl

/-- `RegressionDynamicTwin.model` does not advance `prev_time`. -/
theorem RegDyn_model_prev (x : Fred.RegDynState) :
    (Fred.RegressionDynamicTwin.model x).prev_time = x.prev_time := by
  have h1 := RegDyn_pwr_delay_frame x
  have h2 := RegDyn_heat_eq_frame (Fred.RegressionDynamicTwin.pwr_delay x)
  have h3 := RegDyn_gate_frame (Fred.RegressionDynamicTwin.heat_eq
    (Fred.RegressionDynamicTwin.pwr_delay x))
  unfold Fred.RegressionDynamicTwin.model
  rw [show (Fred.RegressionDynamicTwin.power (Fred.RegressionDynamicTwin.gate
      (Fred.RegressionDynamicTwin.heat_eq
        (Fred.RegressionDynamicTwin.pwr_delay x)))).prev_time
    = (Fred.RegressionDynamicTwin.gate (Fred.RegressionDynamicTwin.heat_eq
        (Fred.RegressionDynamicTwin.pwr_delay x))).prev_time from rfl,
    h3.2.2, h2.2.2, h1.2.2]

/-- C10: on a due scheduler tick of the two regression twins, the
cumulative energy accumulator grows by exactly twice
`sys_power · (cur_time − prev_time) / 3600`: `model()` adds the increment
itself, and `ProcessTwin.run` adds the same increment again after
`model()` returns, with the same `cur_time`, `prev_time` and the
`_sys_power` value `model()` just computed. -/
theorem C10_energy_double_increment :
    (∀ (cur : ℝ) (s : Fred.TwinState), cur ≥ s.prev_time + s.interval →
        (Fred.RegressionStateTwin.run_tick cur s).sys_energy
          = s.sys_energy
            + 2 * ((Fred.RegressionStateTwin.run_tick cur s).sys_power
                * (cur - s.prev_time) / 3600))
      ∧ ∀ (cur : ℝ) (s : Fred.RegDynState), cur ≥ s.prev_time + s.interval →
          (Fred.RegressionDynamicTwin.run_tick cur s).sys_energy
            = s.sys_energy
              + 2 * ((Fred.RegressionDynamicTwin.run_tick cur s).sys_power
                  * (cur - s.prev_time) / 3600) := by
  constructor
  · intro cur s h
    simp only [Fred.RegressionStateTwin.run_tick]
    rw [if_pos h]
    dsimp only
    rw [RegState_model_energy, RegState_model_prev]
    dsimp only
    ring
  · intro cur s h
    simp only [Fred.RegressionDynamicTwin.run_tick]
    rw [if_pos h]
    dsimp only
    rw [RegDyn_model_energy, RegDyn_model_prev]
    dsimp only
    ring
